import Mathlib

/-!
Shallow embedding of the tray component of `src/native/tray.c` (the
`__APPLE__` branch), the status-bar icon lifecycle that the repository
exposes over the OCaml FFI, together with the click handler of the
`TrayTarget` Objective-C class.

Modelling conventions:
* Native object pointers that may be `nil` (the `NSStatusItem`, the
  `TrayTarget`, the `TrayHandle*` itself) become `Option`.
* The OCaml `value` stored in `TrayTarget.callback` becomes a `Nat`;
  `0` means "no callback stored", exactly as in the C field (a real OCaml
  `value` is never the machine word `0`).
* The parts of `statusItem` and its `button` that `tray.c` reads or writes
  (image, title, hidden, visible, target, action) are carried inline in the
  handle, since the handle exclusively owns the status item.
* Calls into AppKit and the OCaml runtime that manage native resources
  (`removeStatusItem`, `release`, `caml_register_global_root`,
  `caml_remove_global_root`, `sizeToFit`) are recorded in an `Effect`
  trace returned next to the updated state; `NSLog` calls are not
  observable effects and are omitted.
* `NSImage` loading (`mlui_make_image_from_path`, which calls
  `initWithContentsOfFile` and returns `nil` on failure) is a platform
  service; it is passed in as a function `loadImage : String → Option Nat`
  where `none` models a failed load.
-/

/-- The `TrayTarget` Objective-C class of `tray.c`: it holds the OCaml
callback `value`; `0` means no callback is stored. -/
structure TrayTarget where
  callback : Nat
deriving DecidableEq, Repr

/-- `TrayTarget`'s `init` method: the callback slot starts at `0`. -/
def TrayTarget.initTarget : TrayTarget := { callback := 0 }

/-- `[TrayTarget handleClick:]`: returns the list of OCaml callbacks invoked
via `caml_callback` — the stored callback when it is non-zero, nothing
otherwise. -/
def TrayTarget.handleClick (t : TrayTarget) : List Nat :=
  if t.callback ≠ 0 then [t.callback] else []

/-- The state of `statusItem.button` that `tray.c` touches: the displayed
image and title, the hidden flag, and whether the click target and action
have been wired up. -/
structure Button where
  image : Option Nat
  title : String
  hidden : Bool
  targetAttached : Bool
  actionSet : Bool
deriving DecidableEq, Repr

/-- The state of the `NSStatusItem` that `tray.c` touches. -/
structure StatusItem where
  button : Button
  visible : Bool
deriving DecidableEq, Repr

/-- The `TrayHandle` struct of `tray.c`: the owned status item (or `nil`
after removal), the optional click-target adapter, and the `removed` flag. -/
structure TrayHandle where
  statusItem : Option StatusItem
  target : Option TrayTarget
  removed : Bool
deriving DecidableEq, Repr

/-- Native-resource actions performed by the tray operations, in program
order. -/
inductive Effect where
  | removeStatusItemFromBar
  | releaseStatusItem
  | registerGlobalRoot (cb : Nat)
  | removeGlobalRoot (cb : Nat)
  | releaseTarget
  | sizeToFit
deriving DecidableEq, Repr

/-- A freshly created status-bar button, before `mlui_tray_make` writes to
it: no image, empty title, not hidden, no target or action. -/
def freshButton : Button :=
  { image := none, title := "", hidden := false
    targetAttached := false, actionSet := false }

/-- `mlui_tray_make`: allocates the status item, makes it visible, then
either installs the loaded image (if a path was given and loading
succeeded), silently keeps no image (if loading failed), or installs the
single-space placeholder title (if no path was given).  Returns a fresh
handle with `target = nil` and `removed = 0`. -/
def mlui_tray_make (loadImage : String → Option Nat)
    (vImagePath : Option String) : TrayHandle :=
  let si : StatusItem := { button := freshButton, visible := true }
  let si : StatusItem :=
    match vImagePath with
    | some p =>
      match loadImage p with
      | some img => { si with button := { si.button with image := some img } }
      | none => si
    | none => { si with button := { si.button with title := " " } }
  { statusItem := some si, target := none, removed := false }

/-- `mlui_tray_set_title`: guarded by
`handle && !handle->removed && handle->statusItem`.  When live, clears the
image, sets the title, unhides the button, makes the item visible and asks
for a `sizeToFit`; the C function returns the very handle value it was
given, so the updated handle is returned in the first component. -/
def mlui_tray_set_title (vTrayHandle : Option TrayHandle) (vTitle : String) :
    Option TrayHandle × List Effect :=
  match vTrayHandle with
  | none => (none, [])
  | some handle =>
    if handle.removed then (some handle, [])
    else
      match handle.statusItem with
      | none => (some handle, [])
      | some si =>
        let button :=
          { si.button with image := none, title := vTitle, hidden := false }
        (some { handle with
                  statusItem := some { si with button := button, visible := true } },
         [Effect.sizeToFit])

/-- `mlui_tray_remove`: guarded by
`handle && !handle->removed && handle->statusItem`.  When live, removes the
status item from the system status bar and releases it; if a target exists,
first removes the callback's global root (when one is registered) and then
releases the target; finally clears both pointers and sets `removed`. -/
def mlui_tray_remove (vTrayHandle : Option TrayHandle) :
    Option TrayHandle × List Effect :=
  match vTrayHandle with
  | none => (none, [])
  | some handle =>
    if handle.removed then (some handle, [])
    else
      match handle.statusItem with
      | none => (some handle, [])
      | some _ =>
        let es := [Effect.removeStatusItemFromBar, Effect.releaseStatusItem]
        let es :=
          match handle.target with
          | none => es
          | some t =>
            es ++ (if t.callback ≠ 0 then [Effect.removeGlobalRoot t.callback] else [])
               ++ [Effect.releaseTarget]
        (some { statusItem := none, target := none, removed := true }, es)

/-- `mlui_tray_set_on_click`: guarded by
`handle && !handle->removed && handle->statusItem`.  When live, creates the
target if it does not exist (with callback slot `0`), removes the global
root of the previously stored callback when one is present, stores the new
callback and registers it as a global root, then wires the button's target
and action to the click handler. -/
def mlui_tray_set_on_click (vTrayHandle : Option TrayHandle) (vCallback : Nat) :
    Option TrayHandle × List Effect :=
  match vTrayHandle with
  | none => (none, [])
  | some handle =>
    if handle.removed then (some handle, [])
    else
      match handle.statusItem with
      | none => (some handle, [])
      | some si =>
        let target := handle.target.getD TrayTarget.initTarget
        let es :=
          if target.callback ≠ 0 then [Effect.removeGlobalRoot target.callback]
          else []
        let es := es ++ [Effect.registerGlobalRoot vCallback]
        let button := { si.button with targetAttached := true, actionSet := true }
        (some { handle with
                  target := some { callback := vCallback }
                  statusItem := some { si with button := button } },
         es)

/-- A user click on the status item: the platform invokes
`[target handleClick:]` exactly when the button's target and action have
been wired up; the result is the list of OCaml callbacks invoked. -/
def simulateClick (handle : TrayHandle) : List Nat :=
  match handle.statusItem with
  | none => []
  | some si =>
    if si.button.targetAttached && si.button.actionSet then
      match handle.target with
      | some t => t.handleClick
      | none => []
    else []

/-- Replaying one effect against the set of currently registered OCaml
global roots (a list of callback values). -/
def applyRootEffect (roots : List Nat) : Effect → List Nat
  | Effect.registerGlobalRoot c => roots ++ [c]
  | Effect.removeGlobalRoot c => roots.erase c
  | _ => roots

/-- All intermediate root sets produced while an effect trace runs, the
starting set included. -/
def rootStates (roots : List Nat) (es : List Effect) : List (List Nat) :=
  List.scanl applyRootEffect roots es

/-- `true` when at no point during the trace more than one global root is
registered. -/
def atMostOneRoot (roots : List Nat) (es : List Effect) : Bool :=
  (rootStates roots es).all (fun r => r.length ≤ 1)

/-- The root set left after an effect trace has run. -/
def finalRoots (roots : List Nat) (es : List Effect) : List Nat :=
  List.foldl applyRootEffect roots es

/-- The global roots a handle currently holds: exactly the target's stored
callback when the target exists and its slot is non-zero (the root is
registered precisely while a non-zero callback is stored). -/
def handleRoots (handle : TrayHandle) : List Nat :=
  match handle.target with
  | none => []
  | some t => if t.callback ≠ 0 then [t.callback] else []

/-- The status-item state that `mlui_tray_set_title` installs on a live
handle: image cleared, title set, button unhidden, item visible. -/
def titleUpdatedItem (si : StatusItem) (t : String) : StatusItem :=
  { si with
    visible := true,
    button := { si.button with image := none, title := t, hidden := false } }

/-- The status-item state after `mlui_tray_set_on_click` wires the button's
target and action to the click handler. -/
def clickWiredItem (si : StatusItem) : StatusItem :=
  { si with
    button := { si.button with targetAttached := true, actionSet := true } }

/-- Claim C1: once a handle's `removed` flag is set, every subsequent
operation — `mlui_tray_set_title`, `mlui_tray_set_on_click`, and
`mlui_tray_remove` again — returns the handle state entirely unchanged and
performs no native-resource action (empty effect trace), so a removed
handle is never resurrected to the live state. -/
theorem C1_removed_handle_inert (h : TrayHandle) (hr : h.removed = true)
    (t : String) (cb : Nat) :
    mlui_tray_set_title (some h) t = (some h, []) ∧
    mlui_tray_set_on_click (some h) cb = (some h, []) ∧
    mlui_tray_remove (some h) = (some h, []) := by
  refine ⟨?_, ?_, ?_⟩ <;>
    simp [mlui_tray_set_title, mlui_tray_set_on_click, mlui_tray_remove, hr]

/-- Witness for C1 at a concrete removed handle. -/
theorem C1_removed_handle_inert_witness :
    mlui_tray_set_title
        (some { statusItem := none, target := none, removed := true }) "x" =
      (some { statusItem := none, target := none, removed := true }, []) ∧
    mlui_tray_set_on_click
        (some { statusItem := none, target := none, removed := true }) 3 =
      (some { statusItem := none, target := none, removed := true }, []) ∧
    mlui_tray_remove
        (some { statusItem := none, target := none, removed := true }) =
      (some { statusItem := none, target := none, removed := true }, []) :=
  C1_removed_handle_inert
    { statusItem := none, target := none, removed := true } rfl "x" 3

/-- Claim C4: `mlui_tray_make` with no image path returns a live handle
(removed flag unset) whose displayed title is the non-empty single-space
placeholder, and whose status item is visible. -/
theorem C4_make_none_placeholder (loadImage : String → Option Nat) :
    (mlui_tray_make loadImage none).removed = false ∧
    ∃ si : StatusItem,
      (mlui_tray_make loadImage none).statusItem = some si ∧
      si.button.title = " " ∧ si.button.title ≠ "" ∧ si.visible = true := by
  exact ⟨rfl,
    ⟨{ button := { image := none, title := " ", hidden := false
                   targetAttached := false, actionSet := false }
       visible := true },
     rfl, rfl, by decide, rfl⟩⟩

/-- Claim C5: when loading the image at the given path fails,
`mlui_tray_make` signals no error: it returns exactly the handle it would
have built had the image-installation step been skipped — live, with a
visible status item carrying no image. -/
theorem C5_make_bad_image_silent (loadImage : String → Option Nat)
    (p : String) (hp : loadImage p = none) :
    mlui_tray_make loadImage (some p) =
      { statusItem := some { button := freshButton, visible := true }
        target := none, removed := false } := by
  simp [mlui_tray_make, hp]

/-- Witness for C5 at a concrete always-failing loader. -/
theorem C5_make_bad_image_silent_witness :
    mlui_tray_make (fun _ => none) (some "bad") =
      { statusItem := some { button := freshButton, visible := true }
        target := none, removed := false } :=
  C5_make_bad_image_silent (fun _ => none) "bad" rfl

/-- Claim C7: delivering a click to a `TrayTarget` whose callback slot is
empty (`0`) invokes no callback at all: the click is discarded. -/
theorem C7_click_without_callback_discarded (t : TrayTarget)
    (hc : t.callback = 0) :
    t.handleClick = [] := by
  simp [TrayTarget.handleClick, hc]

/-- Witness for C7 at the freshly initialised target. -/
theorem C7_click_without_callback_discarded_witness :
    TrayTarget.handleClick TrayTarget.initTarget = [] :=
  C7_click_without_callback_discarded TrayTarget.initTarget rfl

/-- Claim C8: each tray operation applied to a null handle pointer, or to a
handle whose status-item reference is gone, is a total no-op: state is
unchanged and no native-resource effect is performed, because each
operation checks the handle pointer, the removed flag and the status-item
reference before touching native resources. -/
theorem C8_corrupted_handle_noop (t : String) (cb : Nat)
    (h : TrayHandle) (hs : h.statusItem = none) :
    mlui_tray_set_title none t = (none, []) ∧
    mlui_tray_set_on_click none cb = (none, []) ∧
    mlui_tray_remove none = (none, []) ∧
    mlui_tray_set_title (some h) t = (some h, []) ∧
    mlui_tray_set_on_click (some h) cb = (some h, []) ∧
    mlui_tray_remove (some h) = (some h, []) := by
  refine ⟨rfl, rfl, rfl, ?_, ?_, ?_⟩ <;>
    cases hrem : h.removed <;>
      simp [mlui_tray_set_title, mlui_tray_set_on_click, mlui_tray_remove,
            hs, hrem]

/-- Witness for C8 at a concrete handle with a nil status item. -/
theorem C8_corrupted_handle_noop_witness :
    mlui_tray_set_title none "x" = (none, []) ∧
    mlui_tray_set_on_click none 3 = (none, []) ∧
    mlui_tray_remove none = (none, []) ∧
    mlui_tray_set_title
        (some { statusItem := none, target := none, removed := false }) "x" =
      (some { statusItem := none, target := none, removed := false }, []) ∧
    mlui_tray_set_on_click
        (some { statusItem := none, target := none, removed := false }) 3 =
      (some { statusItem := none, target := none, removed := false }, []) ∧
    mlui_tray_remove
        (some { statusItem := none, target := none, removed := false }) =
      (some { statusItem := none, target := none, removed := false }, []) :=
  C8_corrupted_handle_noop "x" 3
    { statusItem := none, target := none, removed := false } rfl

/-- Claim C9: when the image at the given path fails to load, the handle
built by `mlui_tray_make` displays nothing — its title is the empty string
and it has no image — whereas `mlui_tray_make` with no path installs a
non-empty placeholder title instead. -/
theorem C9_make_failed_image_empty_content (loadImage : String → Option Nat)
    (p : String) (hp : loadImage p = none) :
    (∃ si : StatusItem,
      (mlui_tray_make loadImage (some p)).statusItem = some si ∧
      si.button.title = "" ∧ si.button.image = none) ∧
    ∀ si2 : StatusItem,
      (mlui_tray_make loadImage none).statusItem = some si2 →
        si2.button.title ≠ "" := by
  refine ⟨⟨{ button := freshButton, visible := true }, ?_, rfl, rfl⟩, ?_⟩
  · simp [mlui_tray_make, hp]
  · intro si2 hsi2
    have hc : (mlui_tray_make loadImage none).statusItem =
        some { button := { image := none, title := " ", hidden := false
                           targetAttached := false, actionSet := false }
               visible := true } := rfl
    rw [hc] at hsi2
    rw [(Option.some_inj.mp hsi2).symm]
    decide

/-- Witness for C9 at a concrete always-failing loader. -/
theorem C9_make_failed_image_empty_content_witness :
    (∃ si : StatusItem,
      (mlui_tray_make (fun _ => none) (some "bad")).statusItem = some si ∧
      si.button.title = "" ∧ si.button.image = none) ∧
    ∀ si2 : StatusItem,
      (mlui_tray_make (fun _ => none) none).statusItem = some si2 →
        si2.button.title ≠ "" :=
  C9_make_failed_image_empty_content (fun _ => none) "bad" rfl

/-- Claim C2: `mlui_tray_remove` is idempotent — a second call right after
a first returns the state of the first call unchanged with an empty effect
trace, and across both calls the status item is released at most once, the
target is released at most once, and each callback's global root is removed
at most once. -/
theorem C2_remove_idempotent (h : Option TrayHandle) :
    mlui_tray_remove (mlui_tray_remove h).1 = ((mlui_tray_remove h).1, []) ∧
    ((mlui_tray_remove h).2 ++ (mlui_tray_remove (mlui_tray_remove h).1).2).count
        Effect.releaseStatusItem ≤ 1 ∧
    ((mlui_tray_remove h).2 ++ (mlui_tray_remove (mlui_tray_remove h).1).2).count
        Effect.releaseTarget ≤ 1 ∧
    ∀ c : Nat,
      ((mlui_tray_remove h).2 ++ (mlui_tray_remove (mlui_tray_remove h).1).2).count
        (Effect.removeGlobalRoot c) ≤ 1 := by
  match h with
  | none => refine ⟨rfl, by decide, by decide, fun c => by simp [mlui_tray_remove]⟩
  | some ⟨si, tg, rem⟩ =>
    cases rem <;> cases si <;> cases tg <;>
      refine ⟨?_, ?_, ?_, fun c => ?_⟩ <;>
        simp [mlui_tray_remove, List.count_cons] <;>
          split_ifs <;>
            first
              | rfl
              | simp
              | exact le_trans (List.count_le_length _ _) (by simp)

/-- Claim C3: on a live handle, installing callback `A` and then callback
`B` replaces the registration — the second call's trace removes `A`'s
global root before registering `B`'s, a simulated click afterwards invokes
`B` exactly once and never `A`, at no point during the two calls is more
than one callback root held for the handle, and exactly `B`'s root remains
at the end. -/
theorem C3_set_on_click_replaces (h : TrayHandle) (si : StatusItem)
    (hr : h.removed = false) (hs : h.statusItem = some si)
    (A B : Nat) (hA : A ≠ 0) (hB : B ≠ 0) (hAB : A ≠ B) :
    ∃ h1 h2 : TrayHandle,
      (mlui_tray_set_on_click (some h) A).1 = some h1 ∧
      (mlui_tray_set_on_click (some h1) B).1 = some h2 ∧
      (mlui_tray_set_on_click (some h1) B).2 =
        [Effect.removeGlobalRoot A, Effect.registerGlobalRoot B] ∧
      simulateClick h2 = [B] ∧ A ∉ simulateClick h2 ∧
      atMostOneRoot (handleRoots h)
        ((mlui_tray_set_on_click (some h) A).2 ++
         (mlui_tray_set_on_click (some h1) B).2) = true ∧
      finalRoots (handleRoots h)
        ((mlui_tray_set_on_click (some h) A).2 ++
         (mlui_tray_set_on_click (some h1) B).2) = [B] := by
  obtain ⟨hsi, tg, rem⟩ := h
  change rem = false at hr
  change hsi = some si at hs
  subst hr; subst hs
  refine ⟨{ statusItem := some (clickWiredItem si),
            target := some { callback := A }, removed := false },
    { statusItem := some (clickWiredItem si),
      target := some { callback := B }, removed := false },
    ?_, ?_, ?_, ?_, ?_, ?_, ?_⟩
  · rcases tg with _ | ⟨tc⟩ <;>
      simp [mlui_tray_set_on_click, TrayTarget.initTarget, clickWiredItem]
  · simp [mlui_tray_set_on_click, clickWiredItem, hA]
  · simp [mlui_tray_set_on_click, clickWiredItem, hA]
  · simp [simulateClick, clickWiredItem, TrayTarget.handleClick, hB]
  · simp [simulateClick, clickWiredItem, TrayTarget.handleClick, hB, hAB]
  · rcases tg with _ | tc
    · simp [mlui_tray_set_on_click, TrayTarget.initTarget, clickWiredItem, handleRoots,
        atMostOneRoot, rootStates, applyRootEffect, List.scanl, hA]
    · by_cases h0 : tc.callback = 0 <;>
        simp [mlui_tray_set_on_click, TrayTarget.initTarget, clickWiredItem, handleRoots,
          atMostOneRoot, rootStates, applyRootEffect, List.scanl, hA, h0]
  · rcases tg with _ | tc
    · simp [mlui_tray_set_on_click, TrayTarget.initTarget, clickWiredItem, handleRoots,
        finalRoots, applyRootEffect, hA]
    · by_cases h0 : tc.callback = 0 <;>
        simp [mlui_tray_set_on_click, TrayTarget.initTarget, clickWiredItem, handleRoots,
          finalRoots, applyRootEffect, hA, h0]

/-- Witness for C3 at a concrete live handle with callbacks 3 then 5. -/
theorem C3_set_on_click_replaces_witness :
    ∃ h1 h2 : TrayHandle,
      (mlui_tray_set_on_click
        (some { statusItem := some { button := freshButton, visible := true },
                target := none, removed := false }) 3).1 = some h1 ∧
      (mlui_tray_set_on_click (some h1) 5).1 = some h2 ∧
      (mlui_tray_set_on_click (some h1) 5).2 =
        [Effect.removeGlobalRoot 3, Effect.registerGlobalRoot 5] ∧
      simulateClick h2 = [5] ∧ 3 ∉ simulateClick h2 ∧
      atMostOneRoot
        (handleRoots { statusItem := some { button := freshButton, visible := true },
                       target := none, removed := false })
        ((mlui_tray_set_on_click
          (some { statusItem := some { button := freshButton, visible := true },
                  target := none, removed := false }) 3).2 ++
         (mlui_tray_set_on_click (some h1) 5).2) = true ∧
      finalRoots
        (handleRoots { statusItem := some { button := freshButton, visible := true },
                       target := none, removed := false })
        ((mlui_tray_set_on_click
          (some { statusItem := some { button := freshButton, visible := true },
                  target := none, removed := false }) 3).2 ++
         (mlui_tray_set_on_click (some h1) 5).2) = [5] :=
  C3_set_on_click_replaces
    { statusItem := some { button := freshButton, visible := true },
      target := none, removed := false }
    { button := freshButton, visible := true }
    rfl rfl 3 5 (by decide) (by decide) (by decide)

/-- Claim C6: on a live handle, `mlui_tray_set_title` clears any displayed
image, sets the displayed title to exactly the given text, unhides the
button and makes the item visible, and returns the handle it was given
(same target and removed flag, only the displayed content updated). -/
theorem C6_set_title_sets_content (h : TrayHandle) (si : StatusItem)
    (hr : h.removed = false) (hs : h.statusItem = some si) (t : String) :
    ∃ h2 si2,
      (mlui_tray_set_title (some h) t).1 = some h2 ∧
      h2.target = h.target ∧ h2.removed = h.removed ∧
      h2.statusItem = some si2 ∧
      si2.button.image = none ∧ si2.button.title = t ∧
      si2.button.hidden = false ∧ si2.visible = true := by
  refine ⟨{ h with statusItem := some (titleUpdatedItem si t) },
    titleUpdatedItem si t, ?_, rfl, rfl, rfl, rfl, rfl, rfl, rfl⟩
  simp [mlui_tray_set_title, titleUpdatedItem, hr, hs]

/-- Witness for C6 at a concrete live handle. -/
theorem C6_set_title_sets_content_witness :
    ∃ h2 si2,
      (mlui_tray_set_title
        (some { statusItem := some { button := freshButton, visible := true },
                target := none, removed := false }) "Hi").1 = some h2 ∧
      h2.target =
        ({ statusItem := some { button := freshButton, visible := true },
           target := none, removed := false } : TrayHandle).target ∧
      h2.removed =
        ({ statusItem := some { button := freshButton, visible := true },
           target := none, removed := false } : TrayHandle).removed ∧
      h2.statusItem = some si2 ∧
      si2.button.image = none ∧ si2.button.title = "Hi" ∧
      si2.button.hidden = false ∧ si2.visible = true :=
  C6_set_title_sets_content
    { statusItem := some { button := freshButton, visible := true },
      target := none, removed := false }
    { button := freshButton, visible := true } rfl rfl "Hi"

/-- Claim C10: on a live handle, `mlui_tray_set_title` changes only the
displayed content — the click-target adapter, its pinned callback root, and
the removed flag are untouched, and the operation's trace carries no root
registration or removal, only the layout request. -/
theorem C10_set_title_frame (h : TrayHandle) (si : StatusItem)
    (hr : h.removed = false) (hs : h.statusItem = some si) (t : String) :
    ∃ h2 si2,
      (mlui_tray_set_title (some h) t).1 = some h2 ∧
      h2.target = h.target ∧ h2.removed = false ∧
      h2.statusItem = some si2 ∧
      si2.button.targetAttached = si.button.targetAttached ∧
      si2.button.actionSet = si.button.actionSet ∧
      handleRoots h2 = handleRoots h ∧
      (mlui_tray_set_title (some h) t).2 = [Effect.sizeToFit] := by
  refine ⟨{ h with statusItem := some (titleUpdatedItem si t) },
    titleUpdatedItem si t, ?_, rfl, hr, rfl, rfl, rfl, rfl, ?_⟩
  · simp [mlui_tray_set_title, titleUpdatedItem, hr, hs]
  · simp [mlui_tray_set_title, titleUpdatedItem, hr, hs]

/-- Witness for C10 at a concrete live handle already holding callback 7. -/
theorem C10_set_title_frame_witness :
    ∃ h2 si2,
      (mlui_tray_set_title
        (some { statusItem := some { button := freshButton, visible := true },
                target := some { callback := 7 }, removed := false }) "T").1 =
        some h2 ∧
      h2.target =
        ({ statusItem := some { button := freshButton, visible := true },
           target := some { callback := 7 }, removed := false } : TrayHandle).target ∧
      h2.removed = false ∧
      h2.statusItem = some si2 ∧
      si2.button.targetAttached =
        ({ button := freshButton, visible := true } : StatusItem).button.targetAttached ∧
      si2.button.actionSet =
        ({ button := freshButton, visible := true } : StatusItem).button.actionSet ∧
      handleRoots h2 =
        handleRoots { statusItem := some { button := freshButton, visible := true },
                      target := some { callback := 7 }, removed := false } ∧
      (mlui_tray_set_title
        (some { statusItem := some { button := freshButton, visible := true },
                target := some { callback := 7 }, removed := false }) "T").2 =
        [Effect.sizeToFit] :=
  C10_set_title_frame
    { statusItem := some { button := freshButton, visible := true },
      target := some { callback := 7 }, removed := false }
    { button := freshButton, visible := true } rfl rfl "T"
